import Mathlib

/-!
Shallow embedding of `dsl.go` from chrisseto/goqu: the `DSL` execution
context (tracing plus delegation to a SQL capability), the `Database` and
`TxDatabase` handles, the `Wrap` commit-or-rollback completion protocol,
and the `sync.Once`-guarded lazy `queryFactory`.

Conventions of the embedding:
- Go `error` values are `Option ε` (`none` = nil error); results returned
  together with an error are pairs `Res × Option ε`.
- Go interfaces (`SQL`, `SQLDatabase`, `SQLTx`, the logger and the query
  factory) are records of pure functions, abstract in their result types.
- A call that may log is modelled as returning the list of messages it
  hands to the configured logger (empty when no logger is set).
- `context.Context` is the abstract type `GoContext` with the
  distinguished value `GoContext.background` for `context.Background()`.
- A panic of the work function given to `Wrap` is modelled as a third
  outcome constructor (`FnRes.panics`), and the re-raise by `Wrap` as the
  `WrapOut.panics` result constructor.
-/

namespace Goqu

/-- Positional query arguments, modelled by their Go `%+v` rendering. -/
abbrev Arg := String

/-- `context.Context`: the distinguished `context.Background()` plus
arbitrary other contexts. -/
inductive GoContext
  | background
  | other (n : Nat)
deriving DecidableEq

/-- The Go `%+v` rendering of an argument slice. -/
def goFmtArgs (args : List Arg) : String :=
  "[" ++ String.intercalate " " args ++ "]"

/-- The `SQL` interface of `dsl.go` (ExecContext / PrepareContext /
QueryContext / QueryRowContext), as a record of pure functions from
context, query and args to the returned value-error pair. The four
`scan*Context` fields model the behaviour of the executor that
`exec.NewQueryFactory(d).FromSQL(query, args...)` builds over this same
connection: the query-factory subsystem is an external collaborator, so
its observable behaviour is carried as part of the capability. -/
structure SQLCap (Res Stmt Rows Row ε : Type) where
  execContext : GoContext → String → List Arg → Res × Option ε
  prepareContext : GoContext → String → Stmt × Option ε
  queryContext : GoContext → String → List Arg → Rows × Option ε
  queryRowContext : GoContext → String → List Arg → Row
  scanStructsContext : GoContext → String → List Arg → Option ε
  scanStructContext : GoContext → String → List Arg → Bool × Option ε
  scanValsContext : GoContext → String → List Arg → Option ε
  scanValContext : GoContext → String → List Arg → Bool × Option ε

/-- The `DSL` struct: optional logger, dialect tag, and the wrapped SQL
capability. (`qf`/`qfOnce` are modelled separately by `QFState`, see
below, so that the once-only construction is observable.) `L` is the
type of logger values. -/
structure DSL (Res Stmt Rows Row ε L : Type) where
  logger : Option L
  dialect : String
  sql : SQLCap Res Stmt Rows Row ε

variable {Res Stmt Rows Row ε L π : Type}

/-- `newDSL`: logger nil, given dialect and SQL capability. -/
def newDSL (dialect : String) (sqlcap : SQLCap Res Stmt Rows Row ε) :
    DSL Res Stmt Rows Row ε L :=
  ⟨none, dialect, sqlcap⟩

/-- `DSL.Trace`: the list of messages printed to the logger. With no
logger configured nothing is emitted; otherwise exactly one message is,
whose shape depends on whether the SQL text and the args are empty,
exactly as in the source:
`"[goqu] %s [query:=`%s` args:=%+v]"`, `"[goqu] %s [query:=`%s`]"`,
or `"[goqu] %s"`. -/
def DSL.Trace (d : DSL Res Stmt Rows Row ε L) (op sqlString : String)
    (args : List Arg) : List String :=
  match d.logger with
  | some _ =>
    if sqlString ≠ "" then
      if args.length ≠ 0 then
        ["[goqu] " ++ op ++ " [query:=`" ++ sqlString ++ "` args:=" ++ goFmtArgs args ++ "]"]
      else
        ["[goqu] " ++ op ++ " [query:=`" ++ sqlString ++ "`]"]
    else
      ["[goqu] " ++ op]
  | none => []

/-- `DSL.ExecContext`: traces "EXEC", then forwards to the capability and
returns its value-error pair verbatim. First component: emitted log. -/
def DSL.ExecContext (d : DSL Res Stmt Rows Row ε L) (ctx : GoContext)
    (query : String) (args : List Arg) : List String × (Res × Option ε) :=
  (d.Trace "EXEC" query args, d.sql.execContext ctx query args)

/-- `DSL.Exec`: `ExecContext` at `context.Background()`. -/
def DSL.Exec (d : DSL Res Stmt Rows Row ε L) (query : String)
    (args : List Arg) : List String × (Res × Option ε) :=
  d.ExecContext GoContext.background query args

/-- `DSL.PrepareContext`: traces "PREPARE" with no args, then forwards. -/
def DSL.PrepareContext (d : DSL Res Stmt Rows Row ε L) (ctx : GoContext)
    (query : String) : List String × (Stmt × Option ε) :=
  (d.Trace "PREPARE" query [], d.sql.prepareContext ctx query)

/-- `DSL.Prepare`: `PrepareContext` at `context.Background()`. -/
def DSL.Prepare (d : DSL Res Stmt Rows Row ε L) (query : String) :
    List String × (Stmt × Option ε) :=
  d.PrepareContext GoContext.background query

/-- `DSL.QueryContext`: traces "QUERY", then forwards. -/
def DSL.QueryContext (d : DSL Res Stmt Rows Row ε L) (ctx : GoContext)
    (query : String) (args : List Arg) : List String × (Rows × Option ε) :=
  (d.Trace "QUERY" query args, d.sql.queryContext ctx query args)

/-- `DSL.Query`: `QueryContext` at `context.Background()`. -/
def DSL.Query (d : DSL Res Stmt Rows Row ε L) (query : String)
    (args : List Arg) : List String × (Rows × Option ε) :=
  d.QueryContext GoContext.background query args

/-- `DSL.QueryRowContext`: traces "QUERY ROW", then forwards; the
capability returns only a row handle, no error. -/
def DSL.QueryRowContext (d : DSL Res Stmt Rows Row ε L) (ctx : GoContext)
    (query : String) (args : List Arg) : List String × Row :=
  (d.Trace "QUERY ROW" query args, d.sql.queryRowContext ctx query args)

/-- `DSL.QueryRow`: `QueryRowContext` at `context.Background()`. -/
def DSL.QueryRow (d : DSL Res Stmt Rows Row ε L) (query : String)
    (args : List Arg) : List String × Row :=
  d.QueryRowContext GoContext.background query args

/-- The `qf`/`qfOnce` pair of the `DSL` struct: whether the `sync.Once`
has fired, the stored factory reference (`none` models Go `nil`;
`some k` is the instance constructed by the k-th construction event),
and the ghost count of `exec.NewQueryFactory` invocations. -/
structure QFState where
  qfOnceDone : Bool
  qf : Option Nat
  constructions : Nat
deriving DecidableEq

/-- The state `newDSL` leaves the `qf`/`qfOnce` pair in: factory nil,
once not fired, nothing constructed. -/
def QFState.init : QFState := ⟨false, none, 0⟩

/-- `DSL.queryFactory`: `qfOnce.Do(func() { qf = exec.NewQueryFactory(d) })`
then return `qf`. `sync.Once` guarantees the body runs exactly once and
that concurrent callers are serialized against it, so a call either
observes the once already fired (returning the stored reference,
unchanged state) or fires it (constructing a fresh instance, storing it,
and marking the once done). Returns the observed reference and the new
state. -/
def queryFactory (s : QFState) : Option Nat × QFState :=
  if s.qfOnceDone then (s.qf, s)
  else (some s.constructions, ⟨true, some s.constructions, s.constructions + 1⟩)

/-- `DSL.ScanStructsContext`: obtains the shared factory (one
`queryFactory` call), builds the executor from query and args, and
delegates, passing the error of the executor through. Returns the error and
the updated `qf` state. -/
def DSL.ScanStructsContext (d : DSL Res Stmt Rows Row ε L) (s : QFState)
    (ctx : GoContext) (query : String) (args : List Arg) :
    Option ε × QFState :=
  (d.sql.scanStructsContext ctx query args, (queryFactory s).2)

/-- `DSL.ScanStructs`: `ScanStructsContext` at `context.Background()`. -/
def DSL.ScanStructs (d : DSL Res Stmt Rows Row ε L) (s : QFState)
    (query : String) (args : List Arg) : Option ε × QFState :=
  d.ScanStructsContext s GoContext.background query args

/-- `DSL.ScanStructContext`: like `ScanStructsContext` for a single
struct; passes through the found/not-found flag and error of the executor. -/
def DSL.ScanStructContext (d : DSL Res Stmt Rows Row ε L) (s : QFState)
    (ctx : GoContext) (query : String) (args : List Arg) :
    (Bool × Option ε) × QFState :=
  (d.sql.scanStructContext ctx query args, (queryFactory s).2)

/-- `DSL.ScanStruct`: `ScanStructContext` at `context.Background()`. -/
def DSL.ScanStruct (d : DSL Res Stmt Rows Row ε L) (s : QFState)
    (query : String) (args : List Arg) : (Bool × Option ε) × QFState :=
  d.ScanStructContext s GoContext.background query args

/-- `DSL.ScanValsContext`: like `ScanStructsContext` for primitive
values. -/
def DSL.ScanValsContext (d : DSL Res Stmt Rows Row ε L) (s : QFState)
    (ctx : GoContext) (query : String) (args : List Arg) :
    Option ε × QFState :=
  (d.sql.scanValsContext ctx query args, (queryFactory s).2)

/-- `DSL.ScanVals`: `ScanValsContext` at `context.Background()`. -/
def DSL.ScanVals (d : DSL Res Stmt Rows Row ε L) (s : QFState)
    (query : String) (args : List Arg) : Option ε × QFState :=
  d.ScanValsContext s GoContext.background query args

/-- `DSL.ScanValContext`: like `ScanStructContext` for a primitive
value. -/
def DSL.ScanValContext (d : DSL Res Stmt Rows Row ε L) (s : QFState)
    (ctx : GoContext) (query : String) (args : List Arg) :
    (Bool × Option ε) × QFState :=
  (d.sql.scanValContext ctx query args, (queryFactory s).2)

/-- `DSL.ScanVal`: `ScanValContext` at `context.Background()`. -/
def DSL.ScanVal (d : DSL Res Stmt Rows Row ε L) (s : QFState)
    (query : String) (args : List Arg) : (Bool × Option ε) × QFState :=
  d.ScanValContext s GoContext.background query args

/-- The `SQLTx` interface: the SQL capability plus `Commit()` and
`Rollback()`, whose returned errors are fixed by the underlying
transaction (`none` = success). -/
structure SQLTxCap (Res Stmt Rows Row ε : Type) where
  cap : SQLCap Res Stmt Rows Row ε
  commitRes : Option ε
  rollbackRes : Option ε

/-- The `TxDatabase` struct: an embedded `DSL` over the transactional
capability, plus the `Tx` field. -/
structure TxDatabase (Res Stmt Rows Row ε L : Type) where
  dsl : DSL Res Stmt Rows Row ε L
  tx : SQLTxCap Res Stmt Rows Row ε

/-- `NewTx`: a fresh `DSL` (nil logger) over the transactional
capability, with the given dialect. -/
def NewTx (dialect : String) (tx : SQLTxCap Res Stmt Rows Row ε) :
    TxDatabase Res Stmt Rows Row ε L :=
  ⟨newDSL dialect tx.cap, tx⟩

/-- `DSL.Logger` (setter), as invoked through the embedded `DSL` of a
`TxDatabase`: replaces the logger field. -/
def TxDatabase.Logger (td : TxDatabase Res Stmt Rows Row ε L)
    (lg : Option L) : TxDatabase Res Stmt Rows Row ε L :=
  ⟨⟨lg, td.dsl.dialect, td.dsl.sql⟩, td.tx⟩

/-- `TxDatabase.Commit`: traces "COMMIT" with empty SQL text, then
returns `td.Tx.Commit()` verbatim. First component: emitted log. -/
def TxDatabase.Commit (td : TxDatabase Res Stmt Rows Row ε L) :
    List String × Option ε :=
  (td.dsl.Trace "COMMIT" "" [], td.tx.commitRes)

/-- `TxDatabase.Rollback`: traces "ROLLBACK" with empty SQL text, then
returns `td.Tx.Rollback()` verbatim. -/
def TxDatabase.Rollback (td : TxDatabase Res Stmt Rows Row ε L) :
    List String × Option ε :=
  (td.dsl.Trace "ROLLBACK" "" [], td.tx.rollbackRes)

/-- Outcome of the work function `fn` given to `Wrap`: normal nil
return, normal non-nil error return, or a panic carrying a value of
type `π`. -/
inductive FnRes (ε π : Type)
  | ok
  | fail (e : ε)
  | panics (p : π)
deriving DecidableEq

/-- Outcome of `Wrap` itself: a normal error return (possibly nil) or a
re-raised panic value. -/
inductive WrapOut (ε π : Type)
  | ret (e : Option ε)
  | panics (p : π)
deriving DecidableEq

/-- A completion invocation performed by `Wrap` on the transaction. -/
inductive TxEvent
  | commit
  | rollback
deriving DecidableEq

/-- Everything observable about one `Wrap` execution: its outcome, the
completion invocations it performed in order, and the trace messages it
emitted. -/
structure WrapRun (ε π : Type) where
  out : WrapOut ε π
  events : List TxEvent
  log : List String
deriving DecidableEq

/-- `TxDatabase.Wrap`, faithful to the deferred function in the source:
run `fn`; if it panicked, call `td.Rollback()` discarding its error and
re-raise the same panic value; if it returned a non-nil error, call
`td.Rollback()` and replace the error with the rollback error when
that is non-nil; if it returned nil, call `td.Commit()` and return the
commit error (nil on success). -/
def TxDatabase.Wrap (td : TxDatabase Res Stmt Rows Row ε L)
    (r : FnRes ε π) : WrapRun ε π :=
  match r with
  | .panics p =>
      ⟨.panics p, [.rollback], (td.Rollback).1⟩
  | .fail e =>
      match (td.Rollback).2 with
      | some rollbackErr => ⟨.ret (some rollbackErr), [.rollback], (td.Rollback).1⟩
      | none => ⟨.ret (some e), [.rollback], (td.Rollback).1⟩
  | .ok =>
      match (td.Commit).2 with
      | some commitErr => ⟨.ret (some commitErr), [.commit], (td.Commit).1⟩
      | none => ⟨.ret none, [.commit], (td.Commit).1⟩

/-- `sql.TxOptions` (isolation level and read-only flag), passed through
uninterpreted. -/
structure TxOptions where
  isolation : Nat
  readOnly : Bool
deriving DecidableEq

/-- The `SQLDatabase` interface: the SQL capability plus `Begin()` and
`BeginTx(ctx, opts)`, each yielding a transactional capability or an
error. -/
structure SQLDatabaseCap (Res Stmt Rows Row ε : Type) where
  cap : SQLCap Res Stmt Rows Row ε
  beginRes : Except ε (SQLTxCap Res Stmt Rows Row ε)
  beginTxRes : GoContext → Option TxOptions → Except ε (SQLTxCap Res Stmt Rows Row ε)

/-- The `Database` struct: an embedded `DSL` plus the `Db` field. -/
structure Database (Res Stmt Rows Row ε L : Type) where
  dsl : DSL Res Stmt Rows Row ε L
  db : SQLDatabaseCap Res Stmt Rows Row ε

/-- `newDatabase`: a fresh `DSL` (nil logger) over the connection
capability. -/
def newDatabase (dialect : String) (db : SQLDatabaseCap Res Stmt Rows Row ε) :
    Database Res Stmt Rows Row ε L :=
  ⟨newDSL dialect db.cap, db⟩

/-- `Database.Begin`: `d.Db.Begin()`; on error return `(nil, err)`; on
success `NewTx(d.dialect, sqlTx)` followed by `tx.Logger(d.logger)`.
The second component is the trace output of the call — the source
contains no `Trace` call on either path, so it is always empty. -/
def Database.Begin (d : Database Res Stmt Rows Row ε L) :
    Except ε (TxDatabase Res Stmt Rows Row ε L) × List String :=
  (match d.db.beginRes with
   | .error e => .error e
   | .ok sqlTx => .ok ((NewTx d.dsl.dialect sqlTx).Logger d.dsl.logger), [])

/-- `Database.BeginTx`: like `Begin`, passing context and options to the
capability uninterpreted. -/
def Database.BeginTx (d : Database Res Stmt Rows Row ε L)
    (ctx : GoContext) (opts : Option TxOptions) :
    Except ε (TxDatabase Res Stmt Rows Row ε L) × List String :=
  (match d.db.beginTxRes ctx opts with
   | .error e => .error e
   | .ok sqlTx => .ok ((NewTx d.dsl.dialect sqlTx).Logger d.dsl.logger), [])

/-- `Database.WithTx`: begin a transaction; on failure return the begin
error directly; otherwise run `tx.Wrap(func() error { return fn(tx) })`.
The second component is the ghost list of handles `fn` was invoked on
(the source applies `fn` exactly once, to the new handle, inside the
`Wrap` protocol). -/
def Database.WithTx (d : Database Res Stmt Rows Row ε L)
    (fn : TxDatabase Res Stmt Rows Row ε L → FnRes ε π) :
    WrapOut ε π × List (TxDatabase Res Stmt Rows Row ε L) :=
  match (d.Begin).1 with
  | .error e => (.ret (some e), [])
  | .ok tx => ((tx.Wrap (fn tx)).out, [tx])

/-- One of the four Scan operations of the `DSL`; each performs exactly
one `queryFactory` call before delegating to the executor. -/
inductive ScanOp
  | scanStructs
  | scanStruct
  | scanVals
  | scanVal
deriving DecidableEq

/-- Run a sequence of Scan operations against the `qf` state of one
handle (any serialization of the callers — `sync.Once` makes the
construction atomic, so every concurrent schedule is observationally one
such sequence), recording the factory reference each call observed. -/
def runScanQF : QFState → List ScanOp → List (Option Nat) × QFState
  | s, [] => ([], s)
  | s, _ :: rest =>
      let firstCall := queryFactory s
      let restRun := runScanQF firstCall.2 rest
      (firstCall.1 :: restRun.1, restRun.2)

/-- Completion state of a transaction. -/
inductive TxPhase
  | Open
  | Committed
  | RolledBack
deriving DecidableEq

/-- An operation a caller may perform on one `TxDatabase`: `Commit()`,
`Rollback()`, or any non-completing statement (Exec/Query/Scan/...). -/
inductive TxOp
  | commit
  | rollback
  | stmt
deriving DecidableEq

/-- Modelled from the spec: the completion state of a transaction lives
in the underlying transactional capability (the `Tx` of `database/sql`, not
part of the source of this repository), which treats completion as one-shot:
a commit or rollback on an already-completed transaction returns an
error (`sql.ErrTxDone`) and has no effect on the state. `TxDatabase`
delegates `Commit`/`Rollback` to it unguarded, and no other operation
touches the completion state. -/
def txStep : TxPhase → TxOp → TxPhase
  | .Open, .commit => .Committed
  | .Open, .rollback => .RolledBack
  | s, _ => s

/-- Run a sequence of operations on one transaction handle, counting the
completions that took effect (steps that changed the phase). -/
def runTx : TxPhase → List TxOp → TxPhase × Nat
  | s, [] => (s, 0)
  | s, o :: rest =>
      let s' := txStep s o
      let tailRun := runTx s' rest
      (tailRun.1, (if s' = s then 0 else 1) + tailRun.2)

/-! Concrete sample capabilities and handles, used to instantiate the
universally quantified theorems below on closed inputs. -/

/-- A concrete SQL capability over `Nat`-coded results. -/
def sampleCap : SQLCap Nat Nat Nat Nat Nat :=
  ⟨fun _ _ args => (args.length, none), fun _ _ => (2, none),
   fun _ _ _ => (3, some 11), fun _ _ _ => 4,
   fun _ _ _ => none, fun _ _ _ => (true, none),
   fun _ _ _ => some 12, fun _ _ _ => (false, none)⟩

/-- A transactional capability whose commit and rollback both succeed. -/
def sampleTxOk : SQLTxCap Nat Nat Nat Nat Nat := ⟨sampleCap, none, none⟩

/-- A transactional capability whose rollback fails with error 9. -/
def sampleTxRbFail : SQLTxCap Nat Nat Nat Nat Nat := ⟨sampleCap, none, some 9⟩

/-- A transactional capability whose commit fails with error 8. -/
def sampleTxCommitFail : SQLTxCap Nat Nat Nat Nat Nat := ⟨sampleCap, some 8, none⟩

/-- A transaction handle with a configured logger and succeeding
completions. -/
def sampleTdOk : TxDatabase Nat Nat Nat Nat Nat Unit :=
  ⟨⟨some (), "postgres", sampleCap⟩, sampleTxOk⟩

/-- A transaction handle whose rollback fails with error 9. -/
def sampleTdRbFail : TxDatabase Nat Nat Nat Nat Nat Unit :=
  ⟨⟨some (), "postgres", sampleCap⟩, sampleTxRbFail⟩

/-- A transaction handle whose commit fails with error 8. -/
def sampleTdCommitFail : TxDatabase Nat Nat Nat Nat Nat Unit :=
  ⟨⟨some (), "postgres", sampleCap⟩, sampleTxCommitFail⟩

/-- A database handle (configured logger) whose `Begin` succeeds. -/
def sampleDbOk : Database Nat Nat Nat Nat Nat Unit :=
  ⟨⟨some (), "postgres", sampleCap⟩,
   ⟨sampleCap, .ok sampleTxOk, fun _ _ => .ok sampleTxOk⟩⟩

/-- A database handle whose `Begin` fails with error 7. -/
def sampleDbFail : Database Nat Nat Nat Nat Nat Unit :=
  ⟨⟨some (), "postgres", sampleCap⟩,
   ⟨sampleCap, .error 7, fun _ _ => .error 7⟩⟩

/-! Helper lemmas. -/

/-- Once the `sync.Once` has fired, every further `queryFactory` call
returns the stored reference and leaves the state unchanged. -/
theorem runScanQF_after (s : QFState) (h : s.qfOnceDone = true)
    (ops : List ScanOp) :
    runScanQF s ops = (List.replicate ops.length s.qf, s) := by
  induction ops with
  | nil => simp [runScanQF]
  | cons o rest ih => simp [runScanQF, queryFactory, h, ih, List.replicate_succ]

/-- A completed transaction phase is absorbing: no further operation
changes it or counts as an effective completion. -/
theorem runTx_terminal (s : TxPhase) (h : s ≠ TxPhase.Open)
    (ops : List TxOp) : runTx s ops = (s, 0) := by
  induction ops with
  | nil => rfl
  | cons o rest ih =>
      cases s with
      | Open => exact absurd rfl h
      | Committed => simp [runTx, txStep, ih]
      | RolledBack => simp [runTx, txStep, ih]

/-! Theorems settling the claims. -/

/-- C1: when the work function returns a non-nil error E (without
panicking), `Wrap` invokes Rollback exactly once and never Commit; if
the rollback succeeds `Wrap` returns E unchanged, and if the rollback
fails with R, `Wrap` returns R instead of E. -/
theorem C1_wrap_error_rollback {Res Stmt Rows Row ε L π : Type}
    (td : TxDatabase Res Stmt Rows Row ε L) (e : ε) :
    (td.Wrap (FnRes.fail e : FnRes ε π)).events = [TxEvent.rollback] ∧
    (td.tx.rollbackRes = none →
      (td.Wrap (FnRes.fail e : FnRes ε π)).out = WrapOut.ret (some e)) ∧
    (∀ r : ε, td.tx.rollbackRes = some r →
      (td.Wrap (FnRes.fail e : FnRes ε π)).out = WrapOut.ret (some r)) := by
  cases h : td.tx.rollbackRes <;>
    simp [TxDatabase.Wrap, TxDatabase.Rollback, h]

/-- C1 witness: with a succeeding rollback, `Wrap` of error 5 returns 5;
with a rollback failing with 9, it returns 9. -/
theorem C1_wrap_error_rollback_witness :
    (sampleTdOk.Wrap (FnRes.fail 5 : FnRes Nat Nat)).out = WrapOut.ret (some 5) ∧
    (sampleTdRbFail.Wrap (FnRes.fail 5 : FnRes Nat Nat)).out = WrapOut.ret (some 9) :=
  ⟨(C1_wrap_error_rollback sampleTdOk 5).2.1 rfl,
   (C1_wrap_error_rollback sampleTdRbFail 5).2.2 9 rfl⟩

/-- C2: when the work function panics with value F, `Wrap` invokes
Rollback exactly once (never Commit), discards the rollback error, and
re-raises the identical panic value F, never returning a normal error on
this path — regardless of the rollback outcome (the handle, hence the
rollback result, is universally quantified). -/
theorem C2_wrap_panic_reraise {Res Stmt Rows Row ε L π : Type}
    (td : TxDatabase Res Stmt Rows Row ε L) (p : π) :
    (td.Wrap (FnRes.panics p : FnRes ε π)).out = WrapOut.panics p ∧
    (td.Wrap (FnRes.panics p : FnRes ε π)).events = [TxEvent.rollback] ∧
    (∀ oe : Option ε, (td.Wrap (FnRes.panics p : FnRes ε π)).out ≠ WrapOut.ret oe) := by
  simp [TxDatabase.Wrap]

/-- C3: when the work function returns nil, `Wrap` invokes Commit
exactly once and never Rollback, returning nil when the commit succeeds
and the commit error when it fails; and in every non-panic execution
exactly one of Commit/Rollback is invoked, exactly once. -/
theorem C3_wrap_ok_commit {Res Stmt Rows Row ε L π : Type}
    (td : TxDatabase Res Stmt Rows Row ε L) :
    (td.Wrap (FnRes.ok : FnRes ε π)).events = [TxEvent.commit] ∧
    (td.tx.commitRes = none →
      (td.Wrap (FnRes.ok : FnRes ε π)).out = WrapOut.ret none) ∧
    (∀ c : ε, td.tx.commitRes = some c →
      (td.Wrap (FnRes.ok : FnRes ε π)).out = WrapOut.ret (some c)) ∧
    (∀ r : FnRes ε π, (∀ p : π, r ≠ FnRes.panics p) →
      (td.Wrap r).events = [TxEvent.commit] ∨
        (td.Wrap r).events = [TxEvent.rollback]) := by
  refine ⟨?_, ?_, ?_, ?_⟩
  · cases h : td.tx.commitRes <;> simp [TxDatabase.Wrap, TxDatabase.Commit, h]
  · intro h; simp [TxDatabase.Wrap, TxDatabase.Commit, h]
  · intro c h; simp [TxDatabase.Wrap, TxDatabase.Commit, h]
  · intro r hr
    cases r with
    | ok => cases h : td.tx.commitRes <;> simp [TxDatabase.Wrap, TxDatabase.Commit, h]
    | fail e => cases h : td.tx.rollbackRes <;> simp [TxDatabase.Wrap, TxDatabase.Rollback, h]
    | panics p => exact absurd rfl (hr p)

/-- C3 witness: on the succeeding handle `Wrap` of a nil-returning work
function returns nil; on the commit-failing handle it returns the
commit error 8; and the non-panic outcome `FnRes.ok` invokes exactly
one completion. -/
theorem C3_wrap_ok_commit_witness :
    (sampleTdOk.Wrap (FnRes.ok : FnRes Nat Nat)).out = WrapOut.ret none ∧
    (sampleTdCommitFail.Wrap (FnRes.ok : FnRes Nat Nat)).out = WrapOut.ret (some 8) ∧
    ((sampleTdOk.Wrap (FnRes.ok : FnRes Nat Nat)).events = [TxEvent.commit] ∨
      (sampleTdOk.Wrap (FnRes.ok : FnRes Nat Nat)).events = [TxEvent.rollback]) :=
  ⟨(C3_wrap_ok_commit sampleTdOk).2.1 rfl,
   (C3_wrap_ok_commit sampleTdCommitFail).2.2.1 8 rfl,
   (C3_wrap_ok_commit sampleTdOk).2.2.2 FnRes.ok (fun _ h => nomatch h)⟩

/-- C4: with a logger configured, `Trace` emits exactly one message of
the shape "[goqu] op [query:=`sql` args:=args]" when the SQL text and
args are both non-empty, "[goqu] op [query:=`sql`]" when the args are
empty, and "[goqu] op" when the SQL text is empty (so `Commit` and
`Rollback` log exactly "[goqu] COMMIT" / "[goqu] ROLLBACK"); with no
logger configured it emits nothing. -/
theorem C4_trace_format {Res Stmt Rows Row ε L : Type}
    (d : DSL Res Stmt Rows Row ε L) (op sqlString : String) (args : List Arg) :
    (d.logger.isSome →
      (sqlString ≠ "" → args ≠ [] →
        d.Trace op sqlString args =
          ["[goqu] " ++ op ++ " [query:=`" ++ sqlString ++ "` args:=" ++ goFmtArgs args ++ "]"]) ∧
      (sqlString ≠ "" → args = [] →
        d.Trace op sqlString args = ["[goqu] " ++ op ++ " [query:=`" ++ sqlString ++ "`]"]) ∧
      (sqlString = "" → d.Trace op sqlString args = ["[goqu] " ++ op])) ∧
    (d.logger = none → d.Trace op sqlString args = []) ∧
    (∀ td : TxDatabase Res Stmt Rows Row ε L, td.dsl.logger.isSome →
      (td.Commit).1 = ["[goqu] COMMIT"] ∧ (td.Rollback).1 = ["[goqu] ROLLBACK"]) := by
  refine ⟨?_, ?_, ?_⟩
  · intro hl
    cases hlv : d.logger with
    | none => rw [hlv] at hl; simp at hl
    | some lg =>
        refine ⟨?_, ?_, ?_⟩
        · intro hs ha
          simp [DSL.Trace, hlv, hs, List.length_eq_zero, ha]
        · intro hs ha
          simp [DSL.Trace, hlv, hs, ha]
        · intro hs
          simp [DSL.Trace, hlv, hs]
  · intro hl; simp [DSL.Trace, hl]
  · intro td hl
    cases hlv : td.dsl.logger with
    | none => rw [hlv] at hl; simp at hl
    | some lg =>
        constructor <;>
          simp [TxDatabase.Commit, TxDatabase.Rollback, DSL.Trace, hlv]

/-- C4 witness: concrete trace outputs on a handle with a logger, and
the silent no-op on a fresh logger-less `DSL`. -/
theorem C4_trace_format_witness :
    sampleTdOk.dsl.Trace "EXEC" "SELECT 1" ["7"] =
      ["[goqu] " ++ "EXEC" ++ " [query:=`" ++ "SELECT 1" ++ "` args:=" ++ goFmtArgs ["7"] ++ "]"] ∧
    sampleTdOk.dsl.Trace "EXEC" "SELECT 1" [] =
      ["[goqu] " ++ "EXEC" ++ " [query:=`" ++ "SELECT 1" ++ "`]"] ∧
    sampleTdOk.dsl.Trace "COMMIT" "" [] = ["[goqu] " ++ "COMMIT"] ∧
    (newDSL "postgres" sampleCap : DSL Nat Nat Nat Nat Nat Unit).Trace "EXEC" "SELECT 1" ["7"] = [] ∧
    (sampleTdOk.Commit).1 = ["[goqu] COMMIT"] ∧
    (sampleTdOk.Rollback).1 = ["[goqu] ROLLBACK"] :=
  ⟨((C4_trace_format sampleTdOk.dsl "EXEC" "SELECT 1" ["7"]).1 rfl).1
      (by decide) (by decide),
   ((C4_trace_format sampleTdOk.dsl "EXEC" "SELECT 1" []).1 rfl).2.1
      (by decide) rfl,
   ((C4_trace_format sampleTdOk.dsl "COMMIT" "" []).1 rfl).2.2 rfl,
   (C4_trace_format (newDSL "postgres" sampleCap : DSL Nat Nat Nat Nat Nat Unit)
      "EXEC" "SELECT 1" ["7"]).2.1 rfl,
   ((C4_trace_format sampleTdOk.dsl "EXEC" "SELECT 1" ["7"]).2.2 sampleTdOk rfl).1,
   ((C4_trace_format sampleTdOk.dsl "EXEC" "SELECT 1" ["7"]).2.2 sampleTdOk rfl).2⟩

/-- C5: ExecContext, PrepareContext, QueryContext, QueryRowContext,
Commit and Rollback each return exactly the value-error pair produced by
the underlying capability, unmodified. -/
theorem C5_error_passthrough {Res Stmt Rows Row ε L : Type}
    (d : DSL Res Stmt Rows Row ε L) (td : TxDatabase Res Stmt Rows Row ε L)
    (ctx : GoContext) (query : String) (args : List Arg) :
    (d.ExecContext ctx query args).2 = d.sql.execContext ctx query args ∧
    (d.PrepareContext ctx query).2 = d.sql.prepareContext ctx query ∧
    (d.QueryContext ctx query args).2 = d.sql.queryContext ctx query args ∧
    (d.QueryRowContext ctx query args).2 = d.sql.queryRowContext ctx query args ∧
    (td.Commit).2 = td.tx.commitRes ∧
    (td.Rollback).2 = td.tx.rollbackRes :=
  ⟨rfl, rfl, rfl, rfl, rfl, rfl⟩

/-- C6: when the Begin (or BeginTx) of the capability fails, `Database.Begin`
/ `BeginTx` return that error unmodified with no handle and emit no
trace message; when it succeeds, the dialect and logger of the returned
handle equal those of the originating `Database`. -/
theorem C6_begin_propagation {Res Stmt Rows Row ε L : Type}
    (d : Database Res Stmt Rows Row ε L) :
    (d.Begin).2 = [] ∧
    (∀ ctx opts, (d.BeginTx ctx opts).2 = []) ∧
    (∀ e : ε, d.db.beginRes = .error e → (d.Begin).1 = .error e) ∧
    (∀ sqlTx, d.db.beginRes = .ok sqlTx →
      ∃ td, (d.Begin).1 = .ok td ∧ td.dsl.dialect = d.dsl.dialect ∧
        td.dsl.logger = d.dsl.logger) ∧
    (∀ ctx opts (e : ε), d.db.beginTxRes ctx opts = .error e →
      (d.BeginTx ctx opts).1 = .error e) ∧
    (∀ ctx opts sqlTx, d.db.beginTxRes ctx opts = .ok sqlTx →
      ∃ td, (d.BeginTx ctx opts).1 = .ok td ∧ td.dsl.dialect = d.dsl.dialect ∧
        td.dsl.logger = d.dsl.logger) := by
  refine ⟨rfl, fun _ _ => rfl, ?_, ?_, ?_, ?_⟩
  · intro e h; simp [Database.Begin, h]
  · intro sqlTx h
    exact ⟨(NewTx d.dsl.dialect sqlTx).Logger d.dsl.logger,
      by simp [Database.Begin, h], rfl, rfl⟩
  · intro ctx opts e h; simp [Database.BeginTx, h]
  · intro ctx opts sqlTx h
    exact ⟨(NewTx d.dsl.dialect sqlTx).Logger d.dsl.logger,
      by simp [Database.BeginTx, h], rfl, rfl⟩

/-- C6 witness: Begin failure on the failing sample database returns
error 7 and logs nothing; Begin success on the succeeding sample yields
a handle sharing its dialect and logger. -/
theorem C6_begin_propagation_witness :
    (sampleDbFail.Begin).1 = .error 7 ∧
    (sampleDbFail.Begin).2 = [] ∧
    (∃ td, (sampleDbOk.Begin).1 = .ok td ∧
      td.dsl.dialect = sampleDbOk.dsl.dialect ∧
      td.dsl.logger = sampleDbOk.dsl.logger) :=
  ⟨(C6_begin_propagation sampleDbFail).2.2.1 7 rfl,
   (C6_begin_propagation sampleDbFail).1,
   (C6_begin_propagation sampleDbOk).2.2.2.1 sampleTxOk rfl⟩

/-- C7: `WithTx` returns the Begin error directly when Begin fails (never
invoking the work function), and otherwise runs the work function
exactly once, on the transaction handle Begin produced, inside the
`Wrap` protocol, returning the outcome of that protocol. -/
theorem C7_withTx_protocol {Res Stmt Rows Row ε L π : Type}
    (d : Database Res Stmt Rows Row ε L)
    (fn : TxDatabase Res Stmt Rows Row ε L → FnRes ε π) :
    (∀ e : ε, d.db.beginRes = .error e →
      d.WithTx fn = (WrapOut.ret (some e), [])) ∧
    (∀ td, (d.Begin).1 = .ok td →
      d.WithTx fn = ((td.Wrap (fn td)).out, [td])) := by
  constructor
  · intro e h; simp [Database.WithTx, Database.Begin, h]
  · intro td h; simp [Database.WithTx, h]

/-- C7 witness: on the failing sample database `WithTx` returns error 7
with the work function never invoked; on the succeeding sample it runs
the work function once on the handle Begin produced. -/
theorem C7_withTx_protocol_witness :
    sampleDbFail.WithTx (fun _ => (FnRes.fail 5 : FnRes Nat Nat)) =
      (WrapOut.ret (some 7), []) ∧
    sampleDbOk.WithTx (fun _ => (FnRes.fail 5 : FnRes Nat Nat)) =
      ((sampleTdOk.Wrap (FnRes.fail 5 : FnRes Nat Nat)).out, [sampleTdOk]) :=
  ⟨(C7_withTx_protocol sampleDbFail (fun _ => (FnRes.fail 5 : FnRes Nat Nat))).1 7 rfl,
   (C7_withTx_protocol sampleDbOk (fun _ => (FnRes.fail 5 : FnRes Nat Nat))).2 sampleTdOk rfl⟩

/-- C8: over any non-empty sequence of Scan* operations on one handle
starting from the fresh state, the first call constructs the factory
(instance 0), every call observes that same fully-constructed instance,
and exactly one construction ever happens (final state: once fired,
reference `some 0`, construction count 1). -/
theorem C8_queryFactory_once (ops : List ScanOp) (h : ops ≠ []) :
    (runScanQF QFState.init ops).1 = List.replicate ops.length (some 0) ∧
    (runScanQF QFState.init ops).2 = ⟨true, some 0, 1⟩ := by
  cases ops with
  | nil => exact absurd rfl h
  | cons o rest =>
      have hafter := runScanQF_after ⟨true, some 0, 1⟩ rfl rest
      constructor <;>
        simp [runScanQF, queryFactory, QFState.init, hafter, List.replicate]

/-- C8 witness: three Scan* calls on a fresh handle all observe instance
0 and leave exactly one construction. -/
theorem C8_queryFactory_once_witness :
    (runScanQF QFState.init [ScanOp.scanStructs, ScanOp.scanVal, ScanOp.scanVals]).1 =
      List.replicate 3 (some 0) ∧
    (runScanQF QFState.init [ScanOp.scanStructs, ScanOp.scanVal, ScanOp.scanVals]).2 =
      ⟨true, some 0, 1⟩ :=
  C8_queryFactory_once [ScanOp.scanStructs, ScanOp.scanVal, ScanOp.scanVals] (by decide)

/-- C9: over any sequence of operations on one transaction handle, the
completion phase leaves Open at most once (at most one commit/rollback
takes effect), the terminal phases are absorbing (Open is never
re-entered), and the only operations that move the phase out of Open are
Commit and Rollback. -/
theorem C9_completion_once (ops : List TxOp) :
    (runTx TxPhase.Open ops).2 ≤ 1 ∧
    runTx TxPhase.Committed ops = (TxPhase.Committed, 0) ∧
    runTx TxPhase.RolledBack ops = (TxPhase.RolledBack, 0) ∧
    txStep TxPhase.Open TxOp.stmt = TxPhase.Open ∧
    txStep TxPhase.Open TxOp.commit = TxPhase.Committed ∧
    txStep TxPhase.Open TxOp.rollback = TxPhase.RolledBack := by
  refine ⟨?_, runTx_terminal TxPhase.Committed (by simp) ops,
    runTx_terminal TxPhase.RolledBack (by simp) ops, rfl, rfl, rfl⟩
  induction ops with
  | nil => simp [runTx]
  | cons o rest ih =>
      cases o with
      | commit =>
          simp [runTx, txStep, runTx_terminal TxPhase.Committed (by simp) rest]
      | rollback =>
          simp [runTx, txStep, runTx_terminal TxPhase.RolledBack (by simp) rest]
      | stmt => simpa [runTx, txStep] using ih

/-- C10: each context-free operation equals its Context-suffixed
counterpart applied at `context.Background()`: same trace output, same
delegation, same returned values (and, for the Scan family, the same
factory-state effect). -/
theorem C10_context_free_equiv {Res Stmt Rows Row ε L : Type}
    (d : DSL Res Stmt Rows Row ε L) (s : QFState) (query : String)
    (args : List Arg) :
    d.Exec query args = d.ExecContext GoContext.background query args ∧
    d.Prepare query = d.PrepareContext GoContext.background query ∧
    d.Query query args = d.QueryContext GoContext.background query args ∧
    d.QueryRow query args = d.QueryRowContext GoContext.background query args ∧
    d.ScanStructs s query args = d.ScanStructsContext s GoContext.background query args ∧
    d.ScanStruct s query args = d.ScanStructContext s GoContext.background query args ∧
    d.ScanVals s query args = d.ScanValsContext s GoContext.background query args ∧
    d.ScanVal s query args = d.ScanValContext s GoContext.background query args :=
  ⟨rfl, rfl, rfl, rfl, rfl, rfl, rfl, rfl⟩

end Goqu
